import Mathlib

/-!
Verification development for the session-replay relay server
(ws-event-server plus its WebSocket hub).

The TypeScript sources are shallowly embedded as executable Lean
definitions:

* `SessionService` (src/ws-event-server/src/services/SessionService.ts):
  the in-memory session registry, modelled as an association list keyed by
  `sessionId` (the JS `Map`, whose `set` replaces in place) together with
  the list of database batches queued and the domain events emitted by each
  operation.
* `DatabaseService` (src/ws-event-server/src/config/index.ts, second
  document = src/database): the durable store (three tables as lists of
  rows), the batch queue, `processBatch`, and the read queries.  Postgres
  transactions are consumed through their all-or-nothing guarantee: a
  failed `processBatch` applies nothing (`ROLLBACK`) and re-queues.
* `WebSocketService` (the service with ID-conflict resolution; a second,
  superseded copy of the file also ships in the repository and is embedded
  separately as `Legacy`): clients keyed by an opaque connection id, the
  inbound handlers, and `broadcastToViewers`.  Network `readyState` is
  modelled as always OPEN; `ws.send` is modelled as emitting a
  `(targetClientId, message)` pair.

Events, errors and the opaque part of session metadata are type
parameters `α`, `ε`, `μ` (the server treats them as opaque JSON).
Timestamps (`Date.now()`, `CURRENT_TIMESTAMP`) are `Nat` oracle
parameters supplied by the caller, as are the random ids produced by
`randomUUID`.
-/

namespace SessionReplay

/-- JS `Map` lookup (`map.get(k)`), over an association list. -/
def mapGet? {β : Type} : List (String × β) → String → Option β
  | [], _ => none
  | (k, v) :: rest, key => if k = key then some v else mapGet? rest key

/-- JS `Map.set(k, v)`: replaces the binding in place if the key is
present, otherwise appends it. -/
def mapSet {β : Type} : List (String × β) → String → β → List (String × β)
  | [], key, v => [(key, v)]
  | (k, w) :: rest, key, v =>
      if k = key then (key, v) :: rest else (k, w) :: mapSet rest key v

/-- JS `Map.delete`-style filtering is expressed with `List.filter`
directly where it occurs. `Set.add` on a JS `Set`: append if new. -/
def setAdd (x : String) (s : List String) : List String :=
  if s.contains x then s else s ++ [x]

theorem mapGet?_set_self {β : Type} (m : List (String × β)) (k : String) (v : β) :
    mapGet? (mapSet m k v) k = some v := by
  induction m with
  | nil => simp [mapSet, mapGet?]
  | cons hd tl ih =>
      obtain ⟨k', w⟩ := hd
      by_cases h : k' = k
      · simp [mapSet, h, mapGet?]
      · simp [mapSet, h, mapGet?, ih]

theorem mapGet?_set_other {β : Type} (m : List (String × β)) (k k' : String) (v : β)
    (h : k' ≠ k) : mapGet? (mapSet m k v) k' = mapGet? m k' := by
  induction m with
  | nil => simp [mapSet, mapGet?, Ne.symm h]
  | cons hd tl ih =>
      obtain ⟨k₀, w⟩ := hd
      by_cases h0 : k₀ = k
      · subst h0
        simp [mapSet, mapGet?, Ne.symm h]
      · simp only [mapSet, if_neg h0, mapGet?]
        by_cases h1 : k₀ = k'
        · simp [h1]
        · simp [h1, ih]

theorem mem_of_mem_mapSet {β : Type} {m : List (String × β)} {k : String} {v : β}
    {p : String × β} (h : p ∈ mapSet m k v) : p = (k, v) ∨ p ∈ m := by
  induction m with
  | nil => simpa [mapSet] using h
  | cons hd tl ih =>
      obtain ⟨k₀, w⟩ := hd
      by_cases h0 : k₀ = k
      · simp only [mapSet, if_pos h0, List.mem_cons] at h
        rcases h with h | h
        · exact Or.inl h
        · exact Or.inr (List.mem_cons_of_mem _ h)
      · simp only [mapSet, if_neg h0, List.mem_cons] at h
        rcases h with h | h
        · exact Or.inr (by simp [h])
        · rcases ih h with h' | h'
          · exact Or.inl h'
          · exact Or.inr (List.mem_cons_of_mem _ h')

theorem mem_of_mapGet?_eq_some {β : Type} {m : List (String × β)} {k : String} {v : β}
    (h : mapGet? m k = some v) : (k, v) ∈ m := by
  induction m with
  | nil => simp [mapGet?] at h
  | cons hd tl ih =>
      obtain ⟨k₀, w⟩ := hd
      by_cases h0 : k₀ = k
      · subst h0
        have h' : w = v := by simpa [mapGet?] using h
        subst h'
        exact List.mem_cons_self _ _
      · simp only [mapGet?, if_neg h0] at h
        exact List.mem_cons_of_mem _ (ih h)

/-- JS `arr.slice(-n)` for a natural `n`: `slice(-0)` is `slice(0)` (the
whole array, since `-0 < 0` is false in JS); for `n > 0` it is the last
`min n len` elements. -/
def sliceNeg {γ : Type} (l : List γ) (n : Nat) : List γ :=
  if n = 0 then l else l.drop (l.length - n)

/-- The last `n` elements of a list (the tail retained by trimming). -/
def lastN {γ : Type} (n : Nat) (l : List γ) : List γ :=
  l.drop (l.length - n)

theorem sliceNeg_of_pos {γ : Type} (l : List γ) {n : Nat} (h : n ≠ 0) :
    sliceNeg l n = lastN n l := by
  simp [sliceNeg, lastN, h]

theorem lastN_length {γ : Type} (l : List γ) (n : Nat) (h : n ≤ l.length) :
    (lastN n l).length = n := by
  simp [lastN]
  omega

section Model

variable {α ε μ : Type}

/-- The session metadata object.  Only `lastActivity` is read and written
by the server (`session.metadata.lastActivity = Date.now()`); every other
field (url, userAgent, viewport, startTime, referrer, timeZone, ...) is
opaque JSON and collapsed into `rest`. -/
structure MetaD (μ : Type) where
  lastActivity : Nat
  rest : μ
  deriving DecidableEq, Repr

/-- `SessionData` (src/ws-event-server/src/types, part_014). -/
structure SessionData (α ε μ : Type) where
  sessionId : String
  userId : String
  events : List α
  errors : List ε
  metadata : MetaD μ
  isActive : Bool
  deriving DecidableEq, Repr

/-- `SessionBatch`: the coalesced write unit handed to the database
queue. -/
structure SessionBatch (α ε μ : Type) where
  sessionId : String
  userId : String
  events : List α
  metadata : MetaD μ
  isActive : Bool
  errors : List ε
  deriving DecidableEq, Repr

/-- Domain events emitted by `SessionService` (`this.emit(...)`). -/
inductive DomainEvent (α ε μ : Type) where
  | sessionStarted (s : SessionData α ε μ)
  | sessionEnded (s : SessionData α ε μ)
  | eventsAdded (sessionId : String) (events : List α)
  | errorAdded (sessionId : String) (error : ε)
  deriving DecidableEq, Repr

/-- The in-memory registry: `private sessions = new Map<string, SessionData>()`. -/
abbrev Registry (α ε μ : Type) := List (String × SessionData α ε μ)

/-- Result of one `SessionService` mutation: the new registry, the boolean
the method returns, the batches pushed onto the database queue, and the
domain events emitted. -/
structure SvcResult (α ε μ : Type) where
  sessions : Registry α ε μ
  accepted : Bool
  queued : List (SessionBatch α ε μ)
  emitted : List (DomainEvent α ε μ)
  deriving DecidableEq, Repr

end Model

namespace SessionService

variable {α ε μ : Type}

/-- `queueSessionForDatabase`: a `SessionBatch` carrying only the session
metadata (`events: []`, `errors: []` — events and errors are queued
separately). -/
def sessionOnlyBatch (s : SessionData α ε μ) : SessionBatch α ε μ :=
  { sessionId := s.sessionId
    userId := s.userId
    events := []
    metadata := s.metadata
    isActive := s.isActive
    errors := [] }

/-- `queueEventsForDatabase(session, events)`: a batch carrying exactly
the newly appended events. -/
def eventsOnlyBatch (s : SessionData α ε μ) (events : List α) : SessionBatch α ε μ :=
  { sessionId := s.sessionId
    userId := s.userId
    events := events
    metadata := s.metadata
    isActive := s.isActive
    errors := [] }

/-- `queueErrorForDatabase(session, error)`: a batch carrying one error. -/
def errorOnlyBatch (s : SessionData α ε μ) (error : ε) : SessionBatch α ε μ :=
  { sessionId := s.sessionId
    userId := s.userId
    events := []
    metadata := s.metadata
    isActive := s.isActive
    errors := [error] }

/-- `SessionService.createSession`: unconditionally `sessions.set` a fresh
session with empty buffers and `isActive: true`, queue the initial session
batch, and emit `sessionStarted`. -/
def createSession (r : Registry α ε μ) (sessionId userId : String) (metadata : MetaD μ) :
    SvcResult α ε μ :=
  let session : SessionData α ε μ :=
    { sessionId := sessionId
      userId := userId
      events := []
      errors := []
      metadata := metadata
      isActive := true }
  { sessions := mapSet r sessionId session
    accepted := true
    queued := [sessionOnlyBatch session]
    emitted := [DomainEvent.sessionStarted session] }

/-- `SessionService.addEventsToSession(sessionId, events)`.  Note: the
source checks only that the session exists; it does NOT consult
`isActive`.  `maxEvents` is `config.maxEventsPerSession`, `now` is
`Date.now()`. -/
def addEventsToSession (maxEvents now : Nat) (r : Registry α ε μ)
    (sessionId : String) (events : List α) : SvcResult α ε μ :=
  match mapGet? r sessionId with
  | none => { sessions := r, accepted := false, queued := [], emitted := [] }
  | some s =>
      let s1 : SessionData α ε μ :=
        { s with
          events := s.events ++ events
          metadata := { s.metadata with lastActivity := now } }
      let s2 : SessionData α ε μ :=
        if s1.events.length > maxEvents then
          { s1 with events := sliceNeg s1.events (maxEvents / 2) }
        else s1
      { sessions := mapSet r sessionId s2
        accepted := true
        queued := [eventsOnlyBatch s2 events]
        emitted := [DomainEvent.eventsAdded sessionId events] }

/-- `SessionService.addErrorToSession(sessionId, error)`. -/
def addErrorToSession (r : Registry α ε μ) (sessionId : String) (error : ε) :
    SvcResult α ε μ :=
  match mapGet? r sessionId with
  | none => { sessions := r, accepted := false, queued := [], emitted := [] }
  | some s =>
      let s' : SessionData α ε μ := { s with errors := s.errors ++ [error] }
      { sessions := mapSet r sessionId s'
        accepted := true
        queued := [errorOnlyBatch s' error]
        emitted := [DomainEvent.errorAdded sessionId error] }

/-- `SessionService.endSession(sessionId)`: sets `isActive = false` (the
session stays in the map), queues the final session batch, emits
`sessionEnded`. -/
def endSession (r : Registry α ε μ) (sessionId : String) : SvcResult α ε μ :=
  match mapGet? r sessionId with
  | none => { sessions := r, accepted := false, queued := [], emitted := [] }
  | some s =>
      let s' : SessionData α ε μ := { s with isActive := false }
      { sessions := mapSet r sessionId s'
        accepted := true
        queued := [sessionOnlyBatch s']
        emitted := [DomainEvent.sessionEnded s'] }

/-- `SessionService.updateSessionHeartbeat(sessionId)`. -/
def updateSessionHeartbeat (now : Nat) (r : Registry α ε μ) (sessionId : String) :
    SvcResult α ε μ :=
  match mapGet? r sessionId with
  | none => { sessions := r, accepted := false, queued := [], emitted := [] }
  | some s =>
      let s' : SessionData α ε μ :=
        { s with metadata := { s.metadata with lastActivity := now } }
      { sessions := mapSet r sessionId s'
        accepted := true
        queued := []
        emitted := [] }

/-- `SessionService.getSession`. -/
def getSession (r : Registry α ε μ) (sessionId : String) : Option (SessionData α ε μ) :=
  mapGet? r sessionId

/-- `SessionService.getAllActiveSessions`. -/
def getAllActiveSessions (r : Registry α ε μ) : List (SessionData α ε μ) :=
  (r.filter (fun p => p.2.isActive)).map (fun p => p.2)

/-- `SessionService.getSessionEvents(sessionId, fromIndex, limit)`: the
in-memory slice `events.slice(fromIndex, fromIndex + limit)`, `[]` for an
unknown session. -/
def getSessionEvents (r : Registry α ε μ) (sessionId : String)
    (fromIndex limit : Nat) : List α :=
  match mapGet? r sessionId with
  | none => []
  | some s => (s.events.drop fromIndex).take limit

/-- 24 hours in milliseconds (`maxAge` in `cleanupOldSessions`). -/
def maxAgeMs : Nat := 24 * 60 * 60 * 1000

/-- `SessionService.cleanupOldSessions`: drop sessions with
`!isActive && now - lastActivity > 24h`.  (`Nat` subtraction truncates at
zero exactly where the JS difference would be negative, so the guard
agrees.) -/
def cleanupOldSessions (now : Nat) (r : Registry α ε μ) : Registry α ε μ :=
  r.filter (fun p => !(!p.2.isActive && decide (now - p.2.metadata.lastActivity > maxAgeMs)))

end SessionService

namespace DatabaseService

variable {α ε μ : Type}

/-- A row of `sessions`.  `session_id` is UNIQUE NOT NULL; `created_at`
and `updated_at` are timestamps. -/
structure SessionsRow (μ : Type) where
  sessionId : String
  userId : String
  metadata : MetaD μ
  isActive : Bool
  createdAt : Nat
  updatedAt : Nat
  deriving DecidableEq, Repr

/-- A row of `session_events`: one whole batch per row, with its
`event_count` and `created_at`. -/
structure EventsRow (α : Type) where
  sessionId : String
  events : List α
  eventCount : Nat
  createdAt : Nat
  deriving DecidableEq, Repr

/-- A row of `session_errors` (`id SERIAL`, one row per error). -/
structure ErrorsRow (ε : Type) where
  id : Nat
  sessionId : String
  errorData : ε
  createdAt : Nat
  deriving DecidableEq, Repr

/-- The durable store: the three tables plus the SERIAL counter feeding
`session_errors.id`. -/
structure Store (α ε μ : Type) where
  sessions : List (SessionsRow μ)
  sessionEvents : List (EventsRow α)
  sessionErrors : List (ErrorsRow ε)
  nextErrorId : Nat
  deriving DecidableEq, Repr

/-- The `INSERT ... ON CONFLICT (session_id) DO UPDATE` statement of
`processBatch`: update `metadata`, `is_active`, `updated_at` (not
`user_id`) if the row exists, else insert.  `t` is the transaction's
`CURRENT_TIMESTAMP`. -/
def upsertSession (t : Nat) (st : Store α ε μ) (b : SessionBatch α ε μ) : Store α ε μ :=
  if (st.sessions.filter (fun row => row.sessionId == b.sessionId)).isEmpty then
    { st with
      sessions := st.sessions ++
        [{ sessionId := b.sessionId, userId := b.userId, metadata := b.metadata,
           isActive := b.isActive, createdAt := t, updatedAt := t }] }
  else
    { st with
      sessions := st.sessions.map (fun row =>
        if row.sessionId == b.sessionId then
          { row with metadata := b.metadata, isActive := b.isActive, updatedAt := t }
        else row) }

/-- The `INSERT INTO session_events` statement: one row holding the whole
batch, only when `batch.events.length > 0`. -/
def appendEventsRow (t : Nat) (st : Store α ε μ) (b : SessionBatch α ε μ) : Store α ε μ :=
  if b.events.isEmpty then st
  else
    { st with
      sessionEvents := st.sessionEvents ++
        [{ sessionId := b.sessionId, events := b.events,
           eventCount := b.events.length, createdAt := t }] }

/-- The `INSERT INTO session_errors` loop: one row per error. -/
def appendErrorRows (t : Nat) (st : Store α ε μ) (b : SessionBatch α ε μ) : Store α ε μ :=
  b.errors.foldl
    (fun acc e =>
      { acc with
        sessionErrors := acc.sessionErrors ++
          [{ id := acc.nextErrorId, sessionId := b.sessionId,
             errorData := e, createdAt := t }]
        nextErrorId := acc.nextErrorId + 1 })
    st

/-- The body of the `for (const batch of batchToProcess)` loop: upsert
the session, then the events row if any, then one row per error. -/
def applyBatch (t : Nat) (st : Store α ε μ) (b : SessionBatch α ε μ) : Store α ε μ :=
  appendErrorRows t (appendEventsRow t (upsertSession t st b) b) b

/-- `DatabaseService` mutable state: the store behind the pool plus the
in-memory `sessionBatchQueue`. -/
structure DbState (α ε μ : Type) where
  store : Store α ε μ
  queue : List (SessionBatch α ε μ)
  deriving DecidableEq, Repr

/-- `DatabaseService.processBatch`.  `splice(0, batchSize)` drains up to
`batchSize` entries from the queue's front; the drained entries are
applied in order inside one transaction (`t` is the transaction's
constant `CURRENT_TIMESTAMP`).  `ok = false` models any statement
failing: the transaction's ROLLBACK leaves the store untouched (the
all-or-nothing guarantee consumed from Postgres) and
`unshift(...batchToProcess)` re-queues the drained entries at the head. -/
def processBatch (batchSize t : Nat) (db : DbState α ε μ) (ok : Bool) : DbState α ε μ :=
  if db.queue.isEmpty then db
  else
    let batchToProcess := db.queue.take batchSize
    let remaining := db.queue.drop batchSize
    if ok then
      { store := batchToProcess.foldl (applyBatch t) db.store, queue := remaining }
    else
      { store := db.store, queue := batchToProcess ++ remaining }

/-- Stable insertion (by `createdAt`, ascending) used to model
`ORDER BY created_at ASC`. -/
def insertRowAsc (x : EventsRow α) : List (EventsRow α) → List (EventsRow α)
  | [] => [x]
  | y :: ys => if x.createdAt ≤ y.createdAt then x :: y :: ys else y :: insertRowAsc x ys

/-- Stable sort of `session_events` rows by `created_at` ascending. -/
def sortRowsAsc (rows : List (EventsRow α)) : List (EventsRow α) :=
  rows.foldr insertRowAsc []

/-- The rows `SELECT events, created_at FROM session_events WHERE
session_id = $1` returns (before ordering). -/
def rowsForSession (st : Store α ε μ) (sessionId : String) : List (EventsRow α) :=
  st.sessionEvents.filter (fun row => row.sessionId == sessionId)

/-- `DatabaseService.getSessionEvents(sessionId, fromIndex, limit)`:
fetch all rows for the session ordered by `created_at` ascending,
concatenate their `events` arrays (the `Array.isArray` guard always
holds in the model, where `events` is a list), and slice
`[fromIndex, fromIndex + limit)`. -/
def getSessionEvents (st : Store α ε μ) (sessionId : String)
    (fromIndex limit : Nat) : List α :=
  let rows := sortRowsAsc (rowsForSession st sessionId)
  let allEvents := rows.flatMap (fun row => row.events)
  (allEvents.drop fromIndex).take limit

/-- The concatenated event stream of a session, in `created_at` ascending
order: what the specification calls "the concatenation of all
session_events rows for that session". -/
def sessionStream (st : Store α ε μ) (sessionId : String) : List α :=
  (sortRowsAsc (rowsForSession st sessionId)).flatMap (fun row => row.events)

/-- The joined row set produced per active session by the query in
`getActiveSessions`:
`sessions s LEFT JOIN session_events se ON s.session_id = se.session_id
LEFT JOIN session_errors ser ON s.session_id = ser.session_id`.
A `LEFT JOIN` with no match contributes a single null row; otherwise one
row per match, so the events and errors matches multiply. -/
def joinedRows (st : Store α ε μ) (sessionId : String) :
    List (Option (EventsRow α) × Option (ErrorsRow ε)) :=
  let evMatches := st.sessionEvents.filter (fun row => row.sessionId == sessionId)
  let erMatches := st.sessionErrors.filter (fun row => row.sessionId == sessionId)
  let evSide := if evMatches.isEmpty then [none] else evMatches.map some
  let erSide := if erMatches.isEmpty then [none] else erMatches.map some
  evSide.flatMap (fun e => erSide.map (fun r => (e, r)))

/-- `COALESCE(SUM(se.event_count), 0)` over the joined rows of one group
(SQL `SUM` skips nulls). -/
def sqlEventCount (st : Store α ε μ) (sessionId : String) : Nat :=
  (joinedRows st sessionId).foldl
    (fun acc p => acc + (match p.1 with | none => 0 | some row => row.eventCount)) 0

/-- `COUNT(ser.id)` over the joined rows of one group (SQL `COUNT(col)`
counts non-null values). -/
def sqlErrorCount (st : Store α ε μ) (sessionId : String) : Nat :=
  ((joinedRows st sessionId).filter (fun p => p.2.isSome)).length

/-- One element of the `getActiveSessions` reply (after the JS `map` that
shapes the API row; default-filling of the opaque metadata fields is not
modelled). -/
structure ActiveSessionRow (μ : Type) where
  sessionId : String
  userId : String
  metadata : MetaD μ
  eventCount : Nat
  errorCount : Nat
  isActive : Bool
  createdAt : Nat
  updatedAt : Nat
  deriving DecidableEq, Repr

/-- Stable insertion by `updated_at` descending. -/
def insertSessionDesc (x : SessionsRow μ) : List (SessionsRow μ) → List (SessionsRow μ)
  | [] => [x]
  | y :: ys =>
      if y.updatedAt ≤ x.updatedAt then x :: y :: ys else y :: insertSessionDesc x ys

/-- `ORDER BY s.updated_at DESC` over the grouped rows. -/
def sortSessionsDesc (rows : List (SessionsRow μ)) : List (SessionsRow μ) :=
  rows.foldr insertSessionDesc []

/-- `DatabaseService.getActiveSessions`: the grouped join described
above, restricted to `is_active = true`, ordered by `updated_at`
descending (`session_id` is UNIQUE in `sessions`, so each group is one
session). -/
def getActiveSessions (st : Store α ε μ) : List (ActiveSessionRow μ) :=
  (sortSessionsDesc (st.sessions.filter (fun row => row.isActive))).map
    (fun s =>
      { sessionId := s.sessionId
        userId := s.userId
        metadata := s.metadata
        eventCount := sqlEventCount st s.sessionId
        errorCount := sqlErrorCount st s.sessionId
        isActive := true
        createdAt := s.createdAt
        updatedAt := s.updatedAt })

/-- What the specification states `eventCount` should be: the total
number of events persisted for the session, i.e. the sum of
`event_count` over its `session_events` rows. -/
def persistedEventTotal (st : Store α ε μ) (sessionId : String) : Nat :=
  (st.sessionEvents.filter (fun row => row.sessionId == sessionId)).foldl
    (fun acc row => acc + row.eventCount) 0

/-- What the specification states `errorCount` should be: the number of
`session_errors` rows of the session. -/
def persistedErrorTotal (st : Store α ε μ) (sessionId : String) : Nat :=
  (st.sessionErrors.filter (fun row => row.sessionId == sessionId)).length

end DatabaseService

namespace WebSocketService

variable {α ε μ : Type}

/-- Client classification (`?type=viewer|tracker`). -/
inductive ClientType where
  | tracker
  | viewer
  deriving DecidableEq, Repr

/-- `ConnectedClient` (transport handle aside): role, owned session,
user, watched set and heartbeat stamp. -/
structure Client where
  type : ClientType
  sessionId : Option String
  userId : Option String
  watchingSessions : List String
  lastHeartbeat : Nat
  deriving DecidableEq, Repr

/-- The hub's `clients` map, keyed by an opaque connection id standing
for the `WebSocket` object. -/
abbrev Clients := List (String × Client)

/-- Outbound wire messages (server → client). -/
inductive WireMsg (α ε μ : Type) where
  | sessionAssigned (sessionId : String)
  | sessionStartedMsg (sessionId userId : String) (metadata : MetaD μ)
  | sessionEndedMsg (sessionId : String)
  | eventsBatch (sessionId : String) (events : List α)
  | sessionJoined (sessionId : String) (events : List α) (metadata : Option (MetaD μ))
      (totalEvents : Nat) (isActive : Bool)
  | sessionEventsMsg (sessionId : String) (events : List α) (fromIndex totalEvents : Nat)
      (hasMore : Bool)
  | errorMsg (message : String)
  deriving DecidableEq, Repr

/-- An outbound send: `(target connection id, message)`. -/
abbrev Out (α ε μ : Type) := List (String × WireMsg α ε μ)

/-- `broadcastToViewers(message, filter)`: send to every client of type
viewer passing the filter (sockets are modelled as always OPEN). -/
def broadcastToViewers (clients : Clients) (filter : Client → Bool)
    (msg : WireMsg α ε μ) : Out α ε μ :=
  (clients.filter (fun p => p.2.type == ClientType.viewer && filter p.2)).map
    (fun p => (p.1, msg))

/-- `setupSessionListeners`: the three registry subscriptions
(`sessionStarted`, `sessionEnded`, `eventsAdded` — no listener is
registered for `errorAdded`) turned into outbound broadcasts. -/
def dispatchDomainEvent (clients : Clients) : DomainEvent α ε μ → Out α ε μ
  | DomainEvent.sessionStarted s =>
      broadcastToViewers clients (fun _ => true)
        (WireMsg.sessionStartedMsg s.sessionId s.userId s.metadata)
  | DomainEvent.sessionEnded s =>
      broadcastToViewers clients (fun _ => true) (WireMsg.sessionEndedMsg s.sessionId)
  | DomainEvent.eventsAdded sessionId events =>
      broadcastToViewers clients (fun c => c.watchingSessions.contains sessionId)
        (WireMsg.eventsBatch sessionId events)
  | DomainEvent.errorAdded _ _ => []

/-- Result of an inbound handler: updated clients, updated registry, and
the messages sent. -/
structure HubResult (α ε μ : Type) where
  clients : Clients
  registry : Registry α ε μ
  outputs : Out α ε μ
  deriving DecidableEq, Repr

/-- The `data` object of a `session_start` frame.  `sessionId`/`userId`
are `none` when absent (or falsy); the remaining payload fields are the
opaque `meta`. -/
structure StartData (μ : Type) where
  sessionId : Option String
  userId : Option String
  meta : μ
  deriving DecidableEq, Repr

/-- `s_${Date.now()}_${randomUUID()}` — the replacement id minted on
conflict (`uuid` is the oracle for `randomUUID()`). -/
def freshSessionId (now : Nat) (uuid : String) : String :=
  "s_" ++ toString now ++ "_" ++ uuid

/-- The branch condition of `handleSessionStart`:
`!incomingId || (existing && existing.isActive && client.sessionId !== incomingId)`. -/
def startConflict (r : Registry α ε μ) (c : Client) : Option String → Bool
  | none => true
  | some sid =>
      match mapGet? r sid with
      | none => false
      | some existing => existing.isActive && !(c.sessionId == some sid)

/-- `WebSocketService.handleSessionStart` (the service with ID-conflict
resolution).  `genUid` is the oracle for the generated
`user_${Date.now()}_${random}` fallback user id.  On conflict (or a
missing id) the fresh id is minted, `session_assigned` is sent first,
then the client's `sessionId`/`userId` are updated and
`createSession` runs (broadcasting `session_started`). -/
def handleSessionStart (r : Registry α ε μ) (clients : Clients) (wsId : String)
    (data : StartData μ) (now : Nat) (uuid genUid : String) : HubResult α ε μ :=
  match mapGet? clients wsId with
  | none => { clients := clients, registry := r, outputs := [] }
  | some c =>
      if c.type = ClientType.tracker then
        let userId := data.userId.getD genUid
        let conflict := startConflict r c data.sessionId
        let assignedId :=
          if conflict then freshSessionId now uuid else data.sessionId.getD ""
        let assignedOut : Out α ε μ :=
          if conflict then [(wsId, WireMsg.sessionAssigned assignedId)] else []
        let clients' :=
          mapSet clients wsId { c with sessionId := some assignedId, userId := some userId }
        let res := SessionService.createSession r assignedId userId
          { lastActivity := now, rest := data.meta }
        { clients := clients'
          registry := res.sessions
          outputs := assignedOut ++ res.emitted.flatMap (dispatchDomainEvent clients') }
      else { clients := clients, registry := r, outputs := [] }

/-- `WebSocketService.handleEventsBatch`: requires a tracker client with
an owned `sessionId`; otherwise the frame is dropped without reply.  The
registry call's emitted domain events become broadcasts. -/
def handleEventsBatch (maxEvents now : Nat) (r : Registry α ε μ) (clients : Clients)
    (wsId : String) (events : List α) : Registry α ε μ × Out α ε μ :=
  match mapGet? clients wsId with
  | none => (r, [])
  | some c =>
      if c.type = ClientType.tracker then
        match c.sessionId with
        | none => (r, [])
        | some sid =>
            let res := SessionService.addEventsToSession maxEvents now r sid events
            (res.sessions, res.emitted.flatMap (dispatchDomainEvent clients))
      else (r, [])

/-- `WebSocketService.handleSessionEnd(sessionId)`: no client or session
validation beyond what `endSession` does; an unknown id is silently
ignored (the returned `false` is discarded and no reply is sent). -/
def handleSessionEnd (r : Registry α ε μ) (clients : Clients) (sessionId : String) :
    Registry α ε μ × Out α ε μ :=
  let res := SessionService.endSession r sessionId
  (res.sessions, res.emitted.flatMap (dispatchDomainEvent clients))

/-- `WebSocketService.handleViewerJoinSession` (current service): the
sessionId is added to the client's watched set whether or not the session
is known; the `session_joined` reply always carries `events: []`, with
metadata/totals from the in-memory session when present, and otherwise
`metadata = {}` (modelled `none`), `isActive = false` and a total taken
from the in-memory `getSessionEvents` fallback (which yields `[]` for an
unknown session). -/
def handleViewerJoinSession (r : Registry α ε μ) (clients : Clients) (wsId : String)
    (sessionId : String) : HubResult α ε μ :=
  match mapGet? clients wsId with
  | none =>
      { clients := clients, registry := r,
        outputs := [(wsId, WireMsg.errorMsg "Session not found")] }
  | some c =>
      let clients' :=
        mapSet clients wsId
          { c with watchingSessions := setAdd sessionId c.watchingSessions }
      match mapGet? r sessionId with
      | some s =>
          { clients := clients', registry := r,
            outputs := [(wsId,
              WireMsg.sessionJoined sessionId [] (some s.metadata)
                s.events.length s.isActive)] }
      | none =>
          let fetched := SessionService.getSessionEvents r sessionId 0 1000
          { clients := clients', registry := r,
            outputs := [(wsId,
              WireMsg.sessionJoined sessionId [] none fetched.length false)] }

/-- `handleViewerLeaveSession`. -/
def handleViewerLeaveSession (r : Registry α ε μ) (clients : Clients) (wsId : String)
    (sessionId : String) : HubResult α ε μ :=
  match mapGet? clients wsId with
  | none => { clients := clients, registry := r, outputs := [] }
  | some c =>
      { clients := mapSet clients wsId
          { c with watchingSessions := c.watchingSessions.filter (fun x => x != sessionId) }
        registry := r
        outputs := [] }

/-- The superseded copy of the service that also ships in the repository:
its `handleViewerJoinSession` rejects unknown sessions with an error but
sends the last `slice(-1000)` of the buffered events inside
`session_joined`. -/
def handleViewerJoinSessionLegacy (r : Registry α ε μ) (clients : Clients) (wsId : String)
    (sessionId : String) : HubResult α ε μ :=
  match mapGet? clients wsId, mapGet? r sessionId with
  | some c, some s =>
      { clients := mapSet clients wsId
          { c with watchingSessions := setAdd sessionId c.watchingSessions }
        registry := r
        outputs := [(wsId,
          WireMsg.sessionJoined sessionId (sliceNeg s.events 1000) (some s.metadata)
            s.events.length s.isActive)] }
  | _, _ =>
      { clients := clients, registry := r,
        outputs := [(wsId, WireMsg.errorMsg "Session not found")] }

end WebSocketService

section Invariant

variable {α ε μ : Type}

/-- The per-session buffer bound: no in-memory events list is longer than
`maxEvents` (`config.maxEventsPerSession`). -/
def BufBound (maxEvents : Nat) (r : Registry α ε μ) : Prop :=
  ∀ p ∈ r, p.2.events.length ≤ maxEvents

instance (maxEvents : Nat) (r : Registry α ε μ) : Decidable (BufBound maxEvents r) :=
  List.decidableBAll _ r

/-- One mutation of the registry, as dispatched by the hub onto
`SessionService`. -/
inductive RegistryOp (α ε μ : Type) where
  | create (sessionId userId : String) (metadata : MetaD μ)
  | addEvents (sessionId : String) (events : List α) (now : Nat)
  | addError (sessionId : String) (error : ε)
  | endSession (sessionId : String)
  | heartbeat (sessionId : String) (now : Nat)
  | cleanup (now : Nat)

/-- The registry after one `SessionService` operation. -/
def applyRegistryOp (maxEvents : Nat) : RegistryOp α ε μ → Registry α ε μ → Registry α ε μ
  | RegistryOp.create sid uid meta, r => (SessionService.createSession r sid uid meta).sessions
  | RegistryOp.addEvents sid evs now, r =>
      (SessionService.addEventsToSession maxEvents now r sid evs).sessions
  | RegistryOp.addError sid e, r => (SessionService.addErrorToSession r sid e).sessions
  | RegistryOp.endSession sid, r => (SessionService.endSession r sid).sessions
  | RegistryOp.heartbeat sid now, r => (SessionService.updateSessionHeartbeat now r sid).sessions
  | RegistryOp.cleanup now, r => SessionService.cleanupOldSessions now r

theorem bufBound_mapSet {m : Nat} {r : Registry α ε μ} {k : String}
    {v : SessionData α ε μ} (hInv : BufBound m r) (hv : v.events.length ≤ m) :
    BufBound m (mapSet r k v) := by
  intro p hp
  rcases mem_of_mem_mapSet hp with h | h
  · rw [h]
    exact hv
  · exact hInv p h

/-- `addEventsToSession` leaves every other session untouched. -/
theorem addEvents_mapGet?_other (m now : Nat) (r : Registry α ε μ)
    (sid : String) (evs : List α) (k : String) (hk : k ≠ sid) :
    mapGet? (SessionService.addEventsToSession m now r sid evs).sessions k = mapGet? r k := by
  unfold SessionService.addEventsToSession
  cases hg : mapGet? r sid
  · rfl
  · exact mapGet?_set_other r sid k _ hk

end Invariant

section ConcreteInputs

/-- Opaque metadata instantiated at `Nat` for concrete runs. -/
def metaNat : MetaD Nat := { lastActivity := 0, rest := 0 }

/-- A store holding one active session `s` with two persisted events rows
(one event each) and two error rows: the input on which the
`getActiveSessions` join over-counts. -/
def store9 : DatabaseService.Store Nat Nat Nat :=
  { sessions := [{ sessionId := "s", userId := "u", metadata := metaNat,
                   isActive := true, createdAt := 0, updatedAt := 0 }]
    sessionEvents :=
      [{ sessionId := "s", events := [10], eventCount := 1, createdAt := 1 },
       { sessionId := "s", events := [11], eventCount := 1, createdAt := 2 }]
    sessionErrors :=
      [{ id := 1, sessionId := "s", errorData := 7, createdAt := 1 },
       { id := 2, sessionId := "s", errorData := 8, createdAt := 2 }]
    nextErrorId := 3 }

/-- A store for exercising `getSessionEvents`: two rows for `s` stored
out of `created_at` order, plus a row of an unrelated session. -/
def store2 : DatabaseService.Store Nat Nat Nat :=
  { sessions := [{ sessionId := "s", userId := "u", metadata := metaNat,
                   isActive := true, createdAt := 0, updatedAt := 0 }]
    sessionEvents :=
      [{ sessionId := "s", events := [3, 4], eventCount := 2, createdAt := 5 },
       { sessionId := "t", events := [99], eventCount := 1, createdAt := 1 },
       { sessionId := "s", events := [1, 2], eventCount := 2, createdAt := 4 }]
    sessionErrors := []
    nextErrorId := 1 }

end ConcreteInputs

/-- C2: `DatabaseService.getSessionEvents` returns exactly the slice
`[fromIndex, fromIndex + limit)` of the concatenation of the session's
`session_events` rows in `created_at` ascending order (each row's array
kept in stored order); an unknown session, or a `fromIndex` at or beyond
the concatenated stream, yields `[]` rather than an error. -/
theorem c2_getSessionEvents_slices_stream {α ε μ : Type} (st : DatabaseService.Store α ε μ)
    (sessionId : String) (fromIndex limit : Nat) :
    DatabaseService.getSessionEvents st sessionId fromIndex limit
        = ((DatabaseService.sessionStream st sessionId).drop fromIndex).take limit
    ∧ (DatabaseService.rowsForSession st sessionId = [] →
        DatabaseService.getSessionEvents st sessionId fromIndex limit = [])
    ∧ ((DatabaseService.sessionStream st sessionId).length ≤ fromIndex →
        DatabaseService.getSessionEvents st sessionId fromIndex limit = []) := by
  refine ⟨rfl, ?_, ?_⟩
  · intro h
    simp [DatabaseService.getSessionEvents, h, DatabaseService.sortRowsAsc]
  · intro h
    have hd : (DatabaseService.sessionStream st sessionId).drop fromIndex = [] :=
      List.drop_eq_nil_of_le h
    show ((DatabaseService.sessionStream st sessionId).drop fromIndex).take limit = []
    simp [hd]

/-- C2 witness: on `store2` the slice crosses the (re-ordered) row
boundary; an unknown session and an out-of-range offset both return
`[]`. -/
theorem c2_witness :
    (DatabaseService.getSessionEvents store2 "s" 1 2
        = ((DatabaseService.sessionStream store2 "s").drop 1).take 2
      ∧ ((DatabaseService.sessionStream store2 "s").drop 1).take 2 = [2, 3])
    ∧ (DatabaseService.rowsForSession store2 "x" = []
      ∧ DatabaseService.getSessionEvents store2 "x" 0 5 = [])
    ∧ ((DatabaseService.sessionStream store2 "s").length ≤ 9
      ∧ DatabaseService.getSessionEvents store2 "s" 9 5 = []) :=
  ⟨⟨(c2_getSessionEvents_slices_stream store2 "s" 1 2).1, by decide⟩,
   ⟨by decide, (c2_getSessionEvents_slices_stream store2 "x" 0 5).2.1 (by decide)⟩,
   ⟨by decide, (c2_getSessionEvents_slices_stream store2 "s" 9 5).2.2 (by decide)⟩⟩

/-- C5: a flush drains up to `batchSize` entries from the front of the
queue and applies them in order (each batch: upsert, then events row if
non-empty, then one row per error) in one transaction; on failure the
store is unchanged and the drained entries return to the head of the
queue in their original relative order. -/
theorem c5_processBatch_contract {α ε μ : Type} (batchSize t : Nat)
    (db : DatabaseService.DbState α ε μ) :
    (DatabaseService.processBatch batchSize t db true).store
        = (db.queue.take batchSize).foldl (DatabaseService.applyBatch t) db.store
    ∧ (DatabaseService.processBatch batchSize t db true).queue = db.queue.drop batchSize
    ∧ (db.queue.take batchSize).length ≤ batchSize
    ∧ (DatabaseService.processBatch batchSize t db false).store = db.store
    ∧ (DatabaseService.processBatch batchSize t db false).queue
        = db.queue.take batchSize ++ db.queue.drop batchSize
    ∧ (∀ (st : DatabaseService.Store α ε μ) (b : SessionBatch α ε μ),
        DatabaseService.applyBatch t st b
          = DatabaseService.appendErrorRows t
              (DatabaseService.appendEventsRow t (DatabaseService.upsertSession t st b) b) b) := by
  by_cases hq : db.queue.isEmpty
  · have h0 : db.queue = [] := by simpa [List.isEmpty_iff] using hq
    refine ⟨?_, ?_, ?_, ?_, ?_, fun st b => rfl⟩ <;>
      simp [DatabaseService.processBatch, hq, h0]
  · refine ⟨?_, ?_, ?_, ?_, ?_, fun st b => rfl⟩ <;>
      simp [DatabaseService.processBatch, hq]

open DatabaseService in
/-- C9: on `store9` (one active session with two events rows of one event
each and two error rows) the `LEFT JOIN` pair in `getActiveSessions`
produces a cross product of the events and errors rows, so
`SUM(se.event_count)` and `COUNT(ser.id)` both evaluate to 4, while the
persisted totals the API field names promise are 2 and 2. -/
theorem c9_getActiveSessions_fanout :
    (getActiveSessions store9).map (fun row => (row.sessionId, row.eventCount, row.errorCount))
        = [("s", 4, 4)]
    ∧ persistedEventTotal store9 "s" = 2
    ∧ persistedErrorTotal store9 "s" = 2
    ∧ (4 : Nat) ≠ 2 := by
  refine ⟨?_, ?_, ?_, ?_⟩ <;> decide

/-- C10: `createSession` on a `sessionId` already present replaces the
in-memory session with a fresh one (empty `events`/`errors`,
`isActive = true`), and the batch it queues carries no events and no
errors, so applying it to the store touches neither `session_events` nor
`session_errors`. -/
theorem c10_createSession_resets {α ε μ : Type} (r : Registry α ε μ)
    (sessionId userId : String) (metadata : MetaD μ) (old : SessionData α ε μ)
    (_h : mapGet? r sessionId = some old) :
    mapGet? (SessionService.createSession r sessionId userId metadata).sessions sessionId
        = some { sessionId := sessionId, userId := userId, events := [], errors := [],
                 metadata := metadata, isActive := true }
    ∧ (SessionService.createSession r sessionId userId metadata).queued
        = [{ sessionId := sessionId, userId := userId, events := [],
             metadata := metadata, isActive := true, errors := [] }]
    ∧ (∀ (st : DatabaseService.Store α ε μ) (t : Nat) (b : SessionBatch α ε μ),
        b ∈ (SessionService.createSession r sessionId userId metadata).queued →
          (DatabaseService.applyBatch t st b).sessionEvents = st.sessionEvents
          ∧ (DatabaseService.applyBatch t st b).sessionErrors = st.sessionErrors) := by
  refine ⟨?_, rfl, ?_⟩
  · simp [SessionService.createSession, mapGet?_set_self]
  · intro st t b hb
    have hbe : b = { sessionId := sessionId, userId := userId, events := [],
                     metadata := metadata, isActive := true, errors := [] } := by
      simpa [SessionService.createSession, SessionService.sessionOnlyBatch] using hb
    subst hbe
    constructor <;>
      · simp only [DatabaseService.applyBatch, DatabaseService.appendErrorRows,
          List.foldl_nil, DatabaseService.appendEventsRow, List.isEmpty_nil, if_pos]
        unfold DatabaseService.upsertSession
        split <;> rfl

/-- The registry used by the C10 witness: one existing session `s` with a
non-empty buffer. -/
def c10Reg : Registry Nat Nat Nat :=
  [("s", { sessionId := "s", userId := "u", events := [1, 2], errors := [5],
           metadata := metaNat, isActive := false })]

/-- C10 witness: re-creating `s` over `c10Reg` resets its buffers. -/
theorem c10_witness :
    mapGet? c10Reg "s"
        = some { sessionId := "s", userId := "u", events := [1, 2], errors := [5],
                 metadata := metaNat, isActive := false }
    ∧ mapGet? (SessionService.createSession c10Reg "s" "u2" metaNat).sessions "s"
        = some { sessionId := "s", userId := "u2", events := [], errors := [],
                 metadata := metaNat, isActive := true } :=
  ⟨by decide,
   (c10_createSession_resets c10Reg "s" "u2" metaNat
     { sessionId := "s", userId := "u", events := [1, 2], errors := [5],
       metadata := metaNat, isActive := false } (by decide)).1⟩

/-- A registry holding one session with a single buffered event —
satisfies the buffer bound for `maxEventsPerSession = 1`. -/
def trimReg1 : Registry Nat Nat Nat :=
  [("s", { sessionId := "s", userId := "u", events := [0], errors := [],
           metadata := metaNat, isActive := true })]

/-- C3 counterexample: with `maxEventsPerSession = 1`, appending one more
event makes the buffer length 2 (> 1), yet the trim leaves it at 2
events, not at the last `floor(1/2) = 0` events: `slice(-0)` is
`slice(0)` in JS and keeps the whole array. -/
theorem c3_counterexample :
    1 < ((mapGet? trimReg1 "s").elim 0 (fun s => s.events.length)) + 1
    ∧ (mapGet? (SessionService.addEventsToSession 1 0 trimReg1 "s" [1]).sessions "s").map
        SessionData.events = some [0, 1]
    ∧ (1 : Nat) / 2 = 0
    ∧ ([0, 1] : List Nat) ≠ [] := by
  refine ⟨?_, ?_, ?_, ?_⟩ <;> decide

/-- C3 (amended): provided `floor(maxEvents / 2) ≥ 1`, an append that
overflows the cap truncates the buffer to exactly the last
`floor(maxEvents / 2)` events by arrival order — the tail is retained and
the head discarded. -/
theorem c3_trim_to_half {α ε μ : Type} (m now : Nat) (r : Registry α ε μ)
    (sid : String) (s : SessionData α ε μ) (evs : List α)
    (hhalf : 1 ≤ m / 2) (hg : mapGet? r sid = some s)
    (hover : m < (s.events ++ evs).length) :
    mapGet? (SessionService.addEventsToSession m now r sid evs).sessions sid
        = some { s with events := lastN (m / 2) (s.events ++ evs),
                        metadata := { s.metadata with lastActivity := now } }
    ∧ (lastN (m / 2) (s.events ++ evs)).length = m / 2
    ∧ (s.events ++ evs).take ((s.events ++ evs).length - m / 2)
        ++ lastN (m / 2) (s.events ++ evs) = s.events ++ evs := by
  have hne : m / 2 ≠ 0 := Nat.one_le_iff_ne_zero.mp hhalf
  have hle : m / 2 ≤ (s.events ++ evs).length :=
    le_trans (Nat.div_le_self m 2) (le_of_lt hover)
  refine ⟨?_, lastN_length _ _ hle, ?_⟩
  · simp only [SessionService.addEventsToSession, hg]
    rw [if_pos (by simpa using hover)]
    rw [mapGet?_set_self]
    simp [sliceNeg_of_pos _ hne]
  · simp [lastN, List.take_append_drop]

/-- An empty-buffer registry for the C3 witness. -/
def trimReg10 : Registry Nat Nat Nat :=
  [("s", { sessionId := "s", userId := "u", events := [], errors := [],
           metadata := metaNat, isActive := true })]

/-- The session stored in `trimReg10`. -/
def trimSess10 : SessionData Nat Nat Nat :=
  { sessionId := "s", userId := "u", events := [], errors := [],
    metadata := metaNat, isActive := true }

/-- C3 witness: with `maxEventsPerSession = 10`, after 11 events the
buffer is exactly the last 5 by arrival. -/
theorem c3_witness :
    (1 ≤ 10 / 2 ∧ mapGet? trimReg10 "s" = some trimSess10
      ∧ 10 < (trimSess10.events ++ [0, 1, 2, 3, 4, 5, 6, 7, 8, 9, 10]).length)
    ∧ mapGet? (SessionService.addEventsToSession 10 3 trimReg10 "s"
          [0, 1, 2, 3, 4, 5, 6, 7, 8, 9, 10]).sessions "s"
        = some { trimSess10 with
                  events := lastN (10 / 2) (trimSess10.events ++ [0, 1, 2, 3, 4, 5, 6, 7, 8, 9, 10]),
                  metadata := { trimSess10.metadata with lastActivity := 3 } }
    ∧ lastN (10 / 2) (trimSess10.events ++ [0, 1, 2, 3, 4, 5, 6, 7, 8, 9, 10]) = [6, 7, 8, 9, 10] :=
  ⟨⟨by decide, by decide, by decide⟩,
   (c3_trim_to_half 10 3 trimReg10 "s" trimSess10 [0, 1, 2, 3, 4, 5, 6, 7, 8, 9, 10]
     (by decide) (by decide) (by decide)).1,
   by decide⟩

/-- C4 counterexample: starting from a registry satisfying the bound for
`maxEventsPerSession = 1`, one `addEventsToSession` leaves a buffer of
length 2 — the trim to `floor(1/2) = 0` is a no-op (`slice(-0)` keeps the
whole array), so the invariant is not preserved at this configuration. -/
theorem c4_counterexample :
    BufBound 1 trimReg1
    ∧ ¬ BufBound 1 (applyRegistryOp 1 (RegistryOp.addEvents "s" [1] 0) trimReg1) := by
  constructor <;> decide

/-- C4 (amended): provided `maxEventsPerSession ≥ 2`, every registry
operation preserves the bound: each in-memory events buffer stays at most
`maxEventsPerSession` long. -/
theorem c4_bufBound_preserved {α ε μ : Type} (m : Nat) (op : RegistryOp α ε μ)
    (r : Registry α ε μ) (h2 : 2 ≤ m) (hInv : BufBound m r) :
    BufBound m (applyRegistryOp m op r) := by
  have hhalf : 1 ≤ m / 2 := by omega
  cases op with
  | create sid uid meta =>
      exact bufBound_mapSet hInv (by simp)
  | addEvents sid evs now =>
      simp only [applyRegistryOp, SessionService.addEventsToSession]
      cases hg : mapGet? r sid with
      | none => exact hInv
      | some s =>
          simp only
          refine bufBound_mapSet hInv ?_
          by_cases hov : (s.events ++ evs).length > m
          · rw [if_pos (by simpa using hov)]
            have hne : m / 2 ≠ 0 := by omega
            simp only [sliceNeg_of_pos _ hne, lastN]
            have := List.length_drop ((s.events ++ evs).length - m / 2) (s.events ++ evs)
            simp only [this]
            omega
          · rw [if_neg (by simpa using hov)]
            simpa using le_of_not_lt hov
  | addError sid e =>
      simp only [applyRegistryOp, SessionService.addErrorToSession]
      cases hg : mapGet? r sid with
      | none => exact hInv
      | some s =>
          exact bufBound_mapSet hInv (hInv _ (mem_of_mapGet?_eq_some hg))
  | endSession sid =>
      simp only [applyRegistryOp, SessionService.endSession]
      cases hg : mapGet? r sid with
      | none => exact hInv
      | some s =>
          exact bufBound_mapSet hInv (hInv _ (mem_of_mapGet?_eq_some hg))
  | heartbeat sid now =>
      simp only [applyRegistryOp, SessionService.updateSessionHeartbeat]
      cases hg : mapGet? r sid with
      | none => exact hInv
      | some s =>
          exact bufBound_mapSet hInv (hInv _ (mem_of_mapGet?_eq_some hg))
  | cleanup now =>
      intro p hp
      exact hInv p (List.mem_of_mem_filter hp)

/-- C4 witness: the bound holds for `maxEventsPerSession = 10` on
`trimReg1` and is preserved by an 11-event append. -/
theorem c4_witness :
    (2 ≤ 10 ∧ BufBound 10 trimReg1)
    ∧ BufBound 10 (applyRegistryOp 10
        (RegistryOp.addEvents "s" [1, 2, 3, 4, 5, 6, 7, 8, 9, 10, 11] 0) trimReg1) :=
  ⟨⟨by decide, by decide⟩,
   c4_bufBound_preserved 10 (RegistryOp.addEvents "s" [1, 2, 3, 4, 5, 6, 7, 8, 9, 10, 11] 0)
     trimReg1 (by decide) (by decide)⟩

/-- A registry holding the single active session `s1` (as created by a
tracker's `session_start`). -/
def c1Reg : Registry Nat Nat Nat :=
  (SessionService.createSession ([] : Registry Nat Nat Nat) "s1" "u1" metaNat).sessions

/-- `c1Reg` after `session_end` for `s1`. -/
def c1Ended : Registry Nat Nat Nat :=
  (SessionService.endSession c1Reg "s1").sessions

/-- One connected viewer watching `s1`. -/
def c1Clients : WebSocketService.Clients :=
  [("v", { type := WebSocketService.ClientType.viewer, sessionId := none,
           userId := none, watchingSessions := ["s1"], lastHeartbeat := 0 })]

/-- C1 counterexample: after `endSession` has set `isActive = false` for
`s1`, a further `events_batch` is still accepted (`addEventsToSession`
returns `true` and appends to the buffer), and the resulting
`eventsAdded` emission is broadcast as an `events_batch` wire message to
the viewer watching `s1`. -/
theorem c1_counterexample :
    (mapGet? c1Ended "s1").map SessionData.isActive = some false
    ∧ (SessionService.addEventsToSession 100 5 c1Ended "s1" [42]).accepted = true
    ∧ (mapGet? (SessionService.addEventsToSession 100 5 c1Ended "s1" [42]).sessions "s1").map
        SessionData.events = some [42]
    ∧ (SessionService.addEventsToSession 100 5 c1Ended "s1" [42]).emitted.flatMap
        (WebSocketService.dispatchDomainEvent c1Clients)
        = [("v", WebSocketService.WireMsg.eventsBatch "s1" [42])] := by
  refine ⟨?_, ?_, ?_, ?_⟩ <;> decide

/-- C1 (amended): `endSession` sets `isActive = false` but leaves the
session in the registry, and `addEventsToSession` checks only presence,
not `isActive` — so subsequent `events_batch` frames for an ended session
are still accepted and still emit the `eventsAdded` broadcast.  Events
stop being accepted (with no state change and no emission) exactly when
the `sessionId` is absent from the registry, e.g. after cleanup
eviction. -/
theorem c1_end_not_terminal {α ε μ : Type} (m now : Nat) (r : Registry α ε μ)
    (sid : String) (s : SessionData α ε μ) (evs : List α)
    (hg : mapGet? r sid = some s) :
    mapGet? (SessionService.endSession r sid).sessions sid = some { s with isActive := false }
    ∧ (SessionService.addEventsToSession m now
        (SessionService.endSession r sid).sessions sid evs).accepted = true
    ∧ (SessionService.addEventsToSession m now
        (SessionService.endSession r sid).sessions sid evs).emitted
        = [DomainEvent.eventsAdded sid evs]
    ∧ (∀ (r' : Registry α ε μ), mapGet? r' sid = none →
        SessionService.addEventsToSession m now r' sid evs
          = { sessions := r', accepted := false, queued := [], emitted := [] }) := by
  have hend : mapGet? (SessionService.endSession r sid).sessions sid
      = some { s with isActive := false } := by
    simp [SessionService.endSession, hg, mapGet?_set_self]
  refine ⟨hend, ?_, ?_, ?_⟩
  · simp [SessionService.addEventsToSession, hend]
  · simp [SessionService.addEventsToSession, hend]
  · intro r' h
    simp [SessionService.addEventsToSession, h]

/-- C1 witness: the amended statement instantiated on `c1Reg`. -/
theorem c1_witness :
    mapGet? c1Reg "s1"
        = some { sessionId := "s1", userId := "u1", events := [], errors := [],
                 metadata := metaNat, isActive := true }
    ∧ (mapGet? (SessionService.endSession c1Reg "s1").sessions "s1"
        = some { sessionId := "s1", userId := "u1", events := ([] : List Nat),
                 errors := ([] : List Nat), metadata := metaNat, isActive := false }
      ∧ (SessionService.addEventsToSession 100 5
          (SessionService.endSession c1Reg "s1").sessions "s1" [42]).accepted = true) :=
  ⟨by decide,
   (c1_end_not_terminal 100 5 c1Reg "s1"
      { sessionId := "s1", userId := "u1", events := [], errors := [],
        metadata := metaNat, isActive := true } [42] (by decide)).1,
   ((c1_end_not_terminal 100 5 c1Reg "s1"
      { sessionId := "s1", userId := "u1", events := [], errors := [],
        metadata := metaNat, isActive := true } [42] (by decide)).2.1)⟩

/-- A connected tracker whose owned `sessionId` (`ghost`) is not in the
registry. -/
def c8Clients : WebSocketService.Clients :=
  [("t", { type := WebSocketService.ClientType.tracker, sessionId := some "ghost",
           userId := some "u", watchingSessions := [], lastHeartbeat := 0 })]

/-- C8 counterexample: an `events_batch` and a `session_end` naming the
unknown session `ghost` produce no state change — but also no reply at
all: the output list is empty, so no `error` frame is sent, contrary to
the claim. -/
theorem c8_counterexample :
    WebSocketService.handleEventsBatch 100 0 ([] : Registry Nat Nat Nat) c8Clients "t" [1]
        = (([] : Registry Nat Nat Nat), [])
    ∧ WebSocketService.handleSessionEnd ([] : Registry Nat Nat Nat) c8Clients "ghost"
        = (([] : Registry Nat Nat Nat), []) := by
  constructor <;> decide

/-- C8 (amended): a tracker frame (`events_batch` or `session_end`)
naming a `sessionId` absent from the registry causes no state change and
no reply of any kind — the frame is silently ignored (the registry
methods return `false`, which the handlers discard). -/
theorem c8_unknown_session_ignored {α ε μ : Type} (m now : Nat) (r : Registry α ε μ)
    (clients : WebSocketService.Clients) (wsId sid : String)
    (c : WebSocketService.Client) (evs : List α)
    (hga : mapGet? r sid = none) (hc : mapGet? clients wsId = some c)
    (hcs : c.sessionId = some sid) (ht : c.type = WebSocketService.ClientType.tracker) :
    WebSocketService.handleEventsBatch m now r clients wsId evs = (r, [])
    ∧ WebSocketService.handleSessionEnd r clients sid = (r, []) := by
  constructor
  · simp [WebSocketService.handleEventsBatch, hc, ht, hcs,
      SessionService.addEventsToSession, hga]
  · simp [WebSocketService.handleSessionEnd, SessionService.endSession, hga]

/-- C8 witness: the amended statement instantiated on `c8Clients`. -/
theorem c8_witness :
    (mapGet? ([] : Registry Nat Nat Nat) "ghost" = none
      ∧ mapGet? c8Clients "t"
          = some { type := WebSocketService.ClientType.tracker, sessionId := some "ghost",
                   userId := some "u", watchingSessions := [], lastHeartbeat := 0 })
    ∧ WebSocketService.handleEventsBatch 50 9 ([] : Registry Nat Nat Nat) c8Clients "t" [7]
        = (([] : Registry Nat Nat Nat), []) :=
  ⟨⟨by decide, by decide⟩,
   (c8_unknown_session_ignored 50 9 ([] : Registry Nat Nat Nat) c8Clients "t" "ghost"
     { type := WebSocketService.ClientType.tracker, sessionId := some "ghost",
       userId := some "u", watchingSessions := [], lastHeartbeat := 0 } [7]
     (by decide) (by decide) (by decide) (by decide)).1⟩

open WebSocketService in
/-- C7: for a connected viewer's `viewer_join_session`, the sessionId is
added to the client's watched set and the reply is a single
`session_joined` whose `events` field is `[]` — carrying metadata,
`totalEvents` and `isActive` from the in-memory session when it exists
(and `metadata = {}`, `totalEvents = 0`, `isActive = false` otherwise),
never the event stream itself. -/
theorem c7_viewer_join_empty_events {α ε μ : Type} (r : Registry α ε μ)
    (clients : Clients) (wsId sid : String) (c : Client)
    (hc : mapGet? clients wsId = some c) (_hv : c.type = ClientType.viewer) :
    mapGet? (handleViewerJoinSession r clients wsId sid).clients wsId
        = some { c with watchingSessions := setAdd sid c.watchingSessions }
    ∧ (∀ s, mapGet? r sid = some s →
        (handleViewerJoinSession r clients wsId sid).outputs
          = [(wsId, WireMsg.sessionJoined sid [] (some s.metadata) s.events.length s.isActive)])
    ∧ (mapGet? r sid = none →
        (handleViewerJoinSession r clients wsId sid).outputs
          = [(wsId, WireMsg.sessionJoined sid [] none 0 false)])
    ∧ (∀ p ∈ (handleViewerJoinSession r clients wsId sid).outputs,
        ∀ (sid2 : String) (evs : List α) (md : Option (MetaD μ)) (tot : Nat) (act : Bool),
          p.2 = WireMsg.sessionJoined sid2 evs md tot act → evs = []) := by
  refine ⟨?_, ?_, ?_, ?_⟩
  · cases hr : mapGet? r sid <;>
      simp [handleViewerJoinSession, hc, hr, mapGet?_set_self]
  · intro s hr
    simp [handleViewerJoinSession, hc, hr]
  · intro hr
    simp [handleViewerJoinSession, hc, hr, SessionService.getSessionEvents]
  · intro p hp sid2 evs md tot act hmsg
    cases hr : mapGet? r sid <;>
      · simp only [handleViewerJoinSession, hc, hr] at hp
        simp only [List.mem_singleton] at hp
        subst hp
        simp only at hmsg
        cases hmsg
        rfl

/-- One connected viewer watching nothing yet, for the C7 witness. -/
def c7Clients : WebSocketService.Clients :=
  [("v", { type := WebSocketService.ClientType.viewer, sessionId := none,
           userId := none, watchingSessions := [], lastHeartbeat := 0 })]

/-- C7 witness: joining the live session of `c1Reg` adds it to the
watched set and replies with `events: []` while the buffer is ignored. -/
theorem c7_witness :
    mapGet? (WebSocketService.handleViewerJoinSession c1Reg c7Clients "v" "s1").clients "v"
        = some { type := WebSocketService.ClientType.viewer, sessionId := none,
                 userId := none, watchingSessions := setAdd "s1" [], lastHeartbeat := 0 }
    ∧ (WebSocketService.handleViewerJoinSession c1Reg c7Clients "v" "s1").outputs
        = [("v", WebSocketService.WireMsg.sessionJoined "s1" [] (some metaNat) 0 true)] :=
  ⟨(c7_viewer_join_empty_events c1Reg c7Clients "v" "s1"
      { type := WebSocketService.ClientType.viewer, sessionId := none,
        userId := none, watchingSessions := [], lastHeartbeat := 0 }
      (by decide) (by decide)).1,
   by
     have h := (c7_viewer_join_empty_events c1Reg c7Clients "v" "s1"
       { type := WebSocketService.ClientType.viewer, sessionId := none,
         userId := none, watchingSessions := [], lastHeartbeat := 0 }
       (by decide) (by decide)).2.1
       { sessionId := "s1", userId := "u1", events := [], errors := [],
         metadata := metaNat, isActive := true } (by decide)
     simpa using h⟩

theorem mem_broadcastToViewers {α ε μ : Type} {clients : WebSocketService.Clients}
    {f : WebSocketService.Client → Bool} {msg : WebSocketService.WireMsg α ε μ}
    {p : String × WebSocketService.WireMsg α ε μ}
    (h : p ∈ WebSocketService.broadcastToViewers clients f msg) : p.2 = msg := by
  unfold WebSocketService.broadcastToViewers at h
  obtain ⟨q, hq, rfl⟩ := List.mem_map.mp h
  rfl

open WebSocketService in
/-- C6: when a tracker's `session_start` names a `sessionId` that exists,
is still active and is not the sender's own session (`startConflict`),
the hub mints `freshSessionId now uuid`, sends `session_assigned` with it
as the first output, rebinds the client to the fresh id (so a subsequent
`events_batch` from this connection is attributed to the fresh id and to
no other session) and leaves the conflicting session's entry unchanged;
otherwise the provided id is used unchanged and no `session_assigned` is
sent. Distinctness of the minted id from the incoming one is the
`randomUUID` freshness assumption `hne`. -/
theorem c6_session_start_conflict {α ε μ : Type} (m : Nat) (r : Registry α ε μ)
    (clients : Clients) (wsId : String) (data : StartData μ) (now : Nat)
    (uuid genUid : String) (c : Client) (sid : String)
    (hc : mapGet? clients wsId = some c) (ht : c.type = ClientType.tracker)
    (hd : data.sessionId = some sid) :
    (startConflict r c (some sid) = true → freshSessionId now uuid ≠ sid →
      (handleSessionStart r clients wsId data now uuid genUid).outputs.head?
          = some (wsId, WireMsg.sessionAssigned (freshSessionId now uuid))
      ∧ mapGet? (handleSessionStart r clients wsId data now uuid genUid).clients wsId
          = some { c with sessionId := some (freshSessionId now uuid),
                          userId := some (data.userId.getD genUid) }
      ∧ mapGet? (handleSessionStart r clients wsId data now uuid genUid).registry
            (freshSessionId now uuid)
          = some { sessionId := freshSessionId now uuid,
                   userId := data.userId.getD genUid, events := [], errors := [],
                   metadata := { lastActivity := now, rest := data.meta },
                   isActive := true }
      ∧ mapGet? (handleSessionStart r clients wsId data now uuid genUid).registry sid
          = mapGet? r sid
      ∧ (∀ (evs : List α) (now2 : Nat),
          (handleEventsBatch m now2
              (handleSessionStart r clients wsId data now uuid genUid).registry
              (handleSessionStart r clients wsId data now uuid genUid).clients wsId evs).1
            = (SessionService.addEventsToSession m now2
                (handleSessionStart r clients wsId data now uuid genUid).registry
                (freshSessionId now uuid) evs).sessions
          ∧ ∀ k, k ≠ freshSessionId now uuid →
              mapGet? (handleEventsBatch m now2
                  (handleSessionStart r clients wsId data now uuid genUid).registry
                  (handleSessionStart r clients wsId data now uuid genUid).clients wsId evs).1 k
                = mapGet?
                    (handleSessionStart r clients wsId data now uuid genUid).registry k))
    ∧ (startConflict r c (some sid) = false →
      mapGet? (handleSessionStart r clients wsId data now uuid genUid).clients wsId
          = some { c with sessionId := some sid, userId := some (data.userId.getD genUid) }
      ∧ (∀ p ∈ (handleSessionStart r clients wsId data now uuid genUid).outputs,
          ∀ a, p.2 ≠ WireMsg.sessionAssigned a)
      ∧ mapGet? (handleSessionStart r clients wsId data now uuid genUid).registry sid
          = some { sessionId := sid, userId := data.userId.getD genUid, events := [],
                   errors := [], metadata := { lastActivity := now, rest := data.meta },
                   isActive := true }) := by
  constructor
  · intro hconf hne
    have hred : handleSessionStart r clients wsId data now uuid genUid
        = { clients := mapSet clients wsId
              { c with sessionId := some (freshSessionId now uuid),
                       userId := some (data.userId.getD genUid) }
            registry := mapSet r (freshSessionId now uuid)
              { sessionId := freshSessionId now uuid, userId := data.userId.getD genUid,
                events := [], errors := [],
                metadata := { lastActivity := now, rest := data.meta }, isActive := true }
            outputs := (wsId, WireMsg.sessionAssigned (freshSessionId now uuid))
              :: broadcastToViewers
                   (mapSet clients wsId
                     { c with sessionId := some (freshSessionId now uuid),
                              userId := some (data.userId.getD genUid) })
                   (fun _ => true)
                   (WireMsg.sessionStartedMsg (freshSessionId now uuid)
                     (data.userId.getD genUid)
                     { lastActivity := now, rest := data.meta }) } := by
      simp [handleSessionStart, hc, ht, hd, hconf, SessionService.createSession,
        dispatchDomainEvent]
    refine ⟨?_, ?_, ?_, ?_, ?_⟩
    · rw [hred]
      rfl
    · rw [hred]
      exact mapGet?_set_self clients wsId _
    · rw [hred]
      exact mapGet?_set_self r (freshSessionId now uuid) _
    · rw [hred]
      exact mapGet?_set_other r (freshSessionId now uuid) sid _ (Ne.symm hne)
    · intro evs now2
      constructor
      · rw [hred]
        simp [handleEventsBatch, mapGet?_set_self, ht]
      · intro k hk
        rw [hred]
        simp only [handleEventsBatch, mapGet?_set_self, ht, if_true]
        exact addEvents_mapGet?_other m now2 _ _ evs k hk
  · intro hconf
    have hred : handleSessionStart r clients wsId data now uuid genUid
        = { clients := mapSet clients wsId
              { c with sessionId := some sid, userId := some (data.userId.getD genUid) }
            registry := mapSet r sid
              { sessionId := sid, userId := data.userId.getD genUid,
                events := [], errors := [],
                metadata := { lastActivity := now, rest := data.meta }, isActive := true }
            outputs := broadcastToViewers
                   (mapSet clients wsId
                     { c with sessionId := some sid,
                              userId := some (data.userId.getD genUid) })
                   (fun _ => true)
                   (WireMsg.sessionStartedMsg sid (data.userId.getD genUid)
                     { lastActivity := now, rest := data.meta }) } := by
      simp [handleSessionStart, hc, ht, hd, hconf, SessionService.createSession,
        dispatchDomainEvent]
    refine ⟨?_, ?_, ?_⟩
    · rw [hred]
      exact mapGet?_set_self clients wsId _
    · rw [hred]
      dsimp only
      intro p hp a
      rw [mem_broadcastToViewers hp]
      simp
    · rw [hred]
      exact mapGet?_set_self r sid _

/-- The second tracker of the C6 witness (a different connection, not
owning any session yet). -/
def c6Tracker : WebSocketService.Client :=
  { type := WebSocketService.ClientType.tracker, sessionId := none,
    userId := some "u2", watchingSessions := [], lastHeartbeat := 0 }

/-- Clients map of the C6 witness. -/
def c6Clients : WebSocketService.Clients := [("t2", c6Tracker)]

/-- The conflicting `session_start` payload of the C6 witness: it names
`s1`, which `c1Reg` holds as an active session of another client. -/
def c6Data : WebSocketService.StartData Nat :=
  { sessionId := some "s1", userId := some "u2", meta := 0 }

open WebSocketService in
/-- C6 witness: the conflict branch instantiated — `t2` is told
`session_assigned` with the fresh id and is rebound to it. -/
theorem c6_witness :
    (mapGet? c6Clients "t2" = some c6Tracker
      ∧ c6Tracker.type = ClientType.tracker
      ∧ c6Data.sessionId = some "s1"
      ∧ startConflict c1Reg c6Tracker (some "s1") = true
      ∧ freshSessionId 99 "ab" ≠ "s1")
    ∧ (handleSessionStart c1Reg c6Clients "t2" c6Data 99 "ab" "g").outputs.head?
        = some ("t2", WireMsg.sessionAssigned (freshSessionId 99 "ab"))
    ∧ mapGet? (handleSessionStart c1Reg c6Clients "t2" c6Data 99 "ab" "g").clients "t2"
        = some { c6Tracker with
                  sessionId := some (freshSessionId 99 "ab"),
                  userId := some (c6Data.userId.getD "g") }
    ∧ mapGet? (handleSessionStart c1Reg c6Clients "t2" c6Data 99 "ab" "g").registry "s1"
        = mapGet? c1Reg "s1" :=
  ⟨⟨by decide, by decide, by decide, by decide, by decide⟩,
   ((c6_session_start_conflict 100 c1Reg c6Clients "t2" c6Data 99 "ab" "g" c6Tracker "s1"
      (by decide) (by decide) (by decide)).1 (by decide) (by decide)).1,
   ((c6_session_start_conflict 100 c1Reg c6Clients "t2" c6Data 99 "ab" "g" c6Tracker "s1"
      (by decide) (by decide) (by decide)).1 (by decide) (by decide)).2.1,
   ((c6_session_start_conflict 100 c1Reg c6Clients "t2" c6Data 99 "ab" "g" c6Tracker "s1"
      (by decide) (by decide) (by decide)).1 (by decide) (by decide)).2.2.2.1⟩

end SessionReplay
